import Mathlib

/-!
A verification development for a DPDK-based network-flow feature extractor.

The Python sources are modelled shallowly:
* `bytes` values become `List Nat` (one entry per byte);
* Python `float` timestamps and statistics become `ℚ` (exact arithmetic;
  the only irrational operation, `math.sqrt` inside `statistics.stdev`,
  is modelled as `Real.sqrt` on the rational sample variance);
* `None`-able fields become `Option`;
* the class-level mutable flow table (a `dict`) becomes an explicit
  association list threaded through the functions, with Python's
  insertion-order semantics (new keys appended, updates in place).

Python truthiness tests (`if flow_state.last_time`, `if flow_state.start_time`)
are modelled faithfully: a float is falsy exactly when it equals `0.0`,
a list or dict is falsy exactly when it is empty, `None` is falsy.
-/

namespace Listener

/-- Python string comparison `<` on the underlying character lists:
lexicographic by Unicode code point, a strict prefix being smaller. -/
def charListLt : List Char → List Char → Bool
  | _, [] => false
  | [], _ :: _ => true
  | a :: as, b :: bs =>
      if a.toNat < b.toNat then true
      else if b.toNat < a.toNat then false
      else charListLt as bs

/-- Python string comparison `s < t`. -/
def strLt (s t : String) : Bool := charListLt s.data t.data

/-- Python tuple comparison `(s1, p1) < (s2, p2)` for a `(str, int)` pair:
the strings first, the ports breaking ties. -/
def pairLt (x y : String × Nat) : Bool :=
  strLt x.1 y.1 || (decide (x.1 = y.1) && decide (x.2 < y.2))

/-- `FlowKey` from `packet_parser.py`: the canonicalized flow identifier.
`ip1/port1/ip2/port2/protocol` are the stored fields; `is_forward` is set
during construction and ignored by equality and hash. -/
structure FlowKey where
  ip1 : String
  port1 : Nat
  ip2 : String
  port2 : Nat
  protocol : Nat
  is_forward : Bool
deriving DecidableEq

/-- `FlowKey.__init__`: puts the smaller `(ip, port)` pair (Python tuple
order on the dotted-decimal strings) first and records the direction. -/
def mkFlowKey (src_ip dst_ip : String) (src_port dst_port protocol : Nat) : FlowKey :=
  if pairLt (src_ip, src_port) (dst_ip, dst_port) then
    { ip1 := src_ip, port1 := src_port, ip2 := dst_ip, port2 := dst_port
      protocol := protocol, is_forward := true }
  else
    { ip1 := dst_ip, port1 := dst_port, ip2 := src_ip, port2 := src_port
      protocol := protocol, is_forward := false }

/-- `FlowKey.__eq__`: compares the five stored fields, ignoring `is_forward`. -/
def fkBeq (a b : FlowKey) : Bool :=
  decide (a.ip1 = b.ip1) && decide (a.port1 = b.port1) &&
  decide (a.ip2 = b.ip2) && decide (a.port2 = b.port2) &&
  decide (a.protocol = b.protocol)

/-- `FlowKey.__hash__`: a hash of the direction-ignoring 5-tuple. -/
def hashFK (k : FlowKey) : UInt64 :=
  hash (k.ip1, k.port1, k.ip2, k.port2, k.protocol)

/-- `FlowState` from `packet_parser.py`: per-flow mutable statistics state.
The `tcp_flags_count` defaultdict is an association list in insertion order. -/
structure FlowState where
  start_time : Option ℚ
  last_time : Option ℚ
  total_packets : Nat
  fwd_packets : Nat
  fwd_bytes : Nat
  fwd_packet_lengths : List Nat
  fwd_inter_arrival_times : List ℚ
  fwd_last_time : Option ℚ
  bwd_packets : Nat
  bwd_bytes : Nat
  bwd_packet_lengths : List Nat
  bwd_inter_arrival_times : List ℚ
  bwd_last_time : Option ℚ
  all_packet_lengths : List Nat
  all_inter_arrival_times : List ℚ
  last_packet_time : Option ℚ
  tcp_flags_count : List (Nat × Nat)
  tcp_window_sizes : List Nat
  active_periods : List ℚ
  idle_periods : List ℚ
  last_activity_time : Option ℚ
deriving DecidableEq

/-- `FlowState.__init__`: everything empty / zero / `None`. -/
def initFlowState : FlowState where
  start_time := none
  last_time := none
  total_packets := 0
  fwd_packets := 0
  fwd_bytes := 0
  fwd_packet_lengths := []
  fwd_inter_arrival_times := []
  fwd_last_time := none
  bwd_packets := 0
  bwd_bytes := 0
  bwd_packet_lengths := []
  bwd_inter_arrival_times := []
  bwd_last_time := none
  all_packet_lengths := []
  all_inter_arrival_times := []
  last_packet_time := none
  tcp_flags_count := []
  tcp_window_sizes := []
  active_periods := []
  idle_periods := []
  last_activity_time := none

/-- `defaultdict(int)` increment: bump the count stored under `k`,
inserting `(k, 1)` at the end when `k` is absent (Python dict order). -/
def bumpCount : List (Nat × Nat) → Nat → List (Nat × Nat)
  | [], k => [(k, 1)]
  | (a, c) :: rest, k =>
      if a = k then (a, c + 1) :: rest else (a, c) :: bumpCount rest k

/-- `FlowState.update(packet_length, timestamp, is_forward, tcp_flags, tcp_window)`,
mirroring the statement order of the source. -/
def updateFS (s : FlowState) (packet_length : Nat) (timestamp : ℚ)
    (is_forward : Bool) (tcp_flags : Nat) (tcp_window : Nat) : FlowState :=
  -- Initialize timing
  let s := match s.start_time with
    | none => { s with start_time := some timestamp, last_activity_time := some timestamp }
    | some _ => s
  -- Update general statistics
  let s := { s with
    total_packets := s.total_packets + 1
    all_packet_lengths := s.all_packet_lengths ++ [packet_length]
    last_time := some timestamp }
  -- Calculate inter-arrival time
  let s := match s.last_packet_time with
    | some lp => { s with
        all_inter_arrival_times := s.all_inter_arrival_times ++ [timestamp - lp]
        last_packet_time := some timestamp }
    | none => { s with last_packet_time := some timestamp }
  -- Update direction-specific statistics
  let s :=
    if is_forward then
      let s := { s with
        fwd_packets := s.fwd_packets + 1
        fwd_bytes := s.fwd_bytes + packet_length
        fwd_packet_lengths := s.fwd_packet_lengths ++ [packet_length] }
      match s.fwd_last_time with
      | some ft => { s with
          fwd_inter_arrival_times := s.fwd_inter_arrival_times ++ [timestamp - ft]
          fwd_last_time := some timestamp }
      | none => { s with fwd_last_time := some timestamp }
    else
      let s := { s with
        bwd_packets := s.bwd_packets + 1
        bwd_bytes := s.bwd_bytes + packet_length
        bwd_packet_lengths := s.bwd_packet_lengths ++ [packet_length] }
      match s.bwd_last_time with
      | some bt => { s with
          bwd_inter_arrival_times := s.bwd_inter_arrival_times ++ [timestamp - bt]
          bwd_last_time := some timestamp }
      | none => { s with bwd_last_time := some timestamp }
  -- TCP specific updates
  let s := if tcp_flags > 0 then
      { s with tcp_flags_count := bumpCount s.tcp_flags_count tcp_flags } else s
  let s := if tcp_window > 0 then
      { s with tcp_window_sizes := s.tcp_window_sizes ++ [tcp_window] } else s
  -- Activity tracking
  let s := match s.last_activity_time with
    | some la =>
        if timestamp - la > 1 then
          { s with idle_periods := s.idle_periods ++ [timestamp - la]
                   last_activity_time := some timestamp }
        else
          { s with last_activity_time := some timestamp }
    | none => { s with last_activity_time := some timestamp }
  s

/-- One recorded call to `FlowState.update`. -/
structure UpdateArgs where
  pl : Nat
  ts : ℚ
  fwd : Bool
  flags : Nat
  win : Nat
deriving DecidableEq

/-- A finite sequence of `FlowState.update` calls applied in order. -/
def applyUpdates (s : FlowState) (us : List UpdateArgs) : FlowState :=
  us.foldl (fun s u => updateFS s u.pl u.ts u.fwd u.flags u.win) s

/-- `statistics.mean` on a list of rationals (exact; the source's floats
are modelled as exact rationals). -/
def meanQ (l : List ℚ) : ℚ := l.sum / l.length

/-- `statistics.mean` on a list of ints. -/
def meanN (l : List Nat) : ℚ := meanQ (l.map (fun x => (x : ℚ)))

/-- `statistics.variance` (sample variance, divisor N−1); the source only
calls it on lists of two or more elements. -/
def svarQ (l : List ℚ) : ℚ :=
  (l.map (fun x => (x - meanQ l) ^ 2)).sum / ((l.length : ℚ) - 1)

/-- Sample variance of a list of ints. -/
def svarN (l : List Nat) : ℚ := svarQ (l.map (fun x => (x : ℚ)))

/-- `statistics.stdev`: square root of the sample variance. -/
noncomputable def stdQ (l : List ℚ) : ℝ := Real.sqrt (svarQ l)

/-- `statistics.stdev` on a list of ints. -/
noncomputable def stdN (l : List Nat) : ℝ := stdQ (l.map (fun x => (x : ℚ)))

/-- `min` of a nonempty list (the source guards against emptiness; `0` is a
don't-care default for `[]`). -/
def listMin : List Nat → Nat
  | [] => 0
  | x :: xs => xs.foldl min x

/-- `max` of a nonempty list. -/
def listMax : List Nat → Nat
  | [] => 0
  | x :: xs => xs.foldl max x

/-- The dictionary returned by `PacketParser.calculate_flow_statistics`. -/
structure FlowStats where
  flow_duration : ℚ
  total_fwd_packets : Nat
  total_bwd_packets : Nat
  total_length_fwd_packets : Nat
  total_length_bwd_packets : Nat
  packet_length_mean : ℚ
  packet_length_std : ℝ
  packet_length_min : Nat
  packet_length_max : Nat
  packet_length_variance : ℚ
  fwd_packet_length_mean : ℚ
  flow_bytes_per_second : ℚ
  flow_packets_per_second : ℚ
  fwd_packets_per_second : ℚ
  bwd_packets_per_second : ℚ
  flow_inter_arrival_time_mean : ℚ
  flow_inter_arrival_time_std : ℝ
  fwd_inter_arrival_time_mean : ℚ
  bwd_inter_arrival_time_mean : ℚ
  active_mean : ℚ
  active_std : ℝ
  idle_mean : ℚ
  idle_std : ℝ
  tcp_window_size_mean : ℚ
  tcp_flags_count : Nat
  flow_bytes_total : Nat

/-- `PacketParser.calculate_flow_statistics(flow_state, current_time)`.
Note the Python truthiness test `if flow_state.start_time:` — a start time
of exactly `0.0` is falsy, so the duration falls back to `0` there. -/
noncomputable def calcFlowStats (fs : FlowState) (current_time : ℚ) : FlowStats :=
  let flow_duration : ℚ := match fs.start_time with
    | some t0 => if t0 = 0 then 0 else current_time - t0
    | none => 0
  { flow_duration := flow_duration
    total_fwd_packets := fs.fwd_packets
    total_bwd_packets := fs.bwd_packets
    total_length_fwd_packets := fs.fwd_bytes
    total_length_bwd_packets := fs.bwd_bytes
    packet_length_mean :=
      if fs.all_packet_lengths ≠ [] then meanN fs.all_packet_lengths else 0
    packet_length_std :=
      if fs.all_packet_lengths ≠ [] then
        (if fs.all_packet_lengths.length > 1 then stdN fs.all_packet_lengths else 0)
      else 0
    packet_length_min :=
      if fs.all_packet_lengths ≠ [] then listMin fs.all_packet_lengths else 0
    packet_length_max :=
      if fs.all_packet_lengths ≠ [] then listMax fs.all_packet_lengths else 0
    packet_length_variance :=
      if fs.all_packet_lengths ≠ [] then
        (if fs.all_packet_lengths.length > 1 then svarN fs.all_packet_lengths else 0)
      else 0
    fwd_packet_length_mean :=
      if fs.fwd_packet_lengths ≠ [] then meanN fs.fwd_packet_lengths else 0
    flow_bytes_per_second :=
      if flow_duration > 0 then ((fs.fwd_bytes + fs.bwd_bytes : Nat) : ℚ) / flow_duration else 0
    flow_packets_per_second :=
      if flow_duration > 0 then (fs.total_packets : ℚ) / flow_duration else 0
    fwd_packets_per_second :=
      if flow_duration > 0 then (fs.fwd_packets : ℚ) / flow_duration else 0
    bwd_packets_per_second :=
      if flow_duration > 0 then (fs.bwd_packets : ℚ) / flow_duration else 0
    flow_inter_arrival_time_mean :=
      if fs.all_inter_arrival_times ≠ [] then meanQ fs.all_inter_arrival_times else 0
    flow_inter_arrival_time_std :=
      if fs.all_inter_arrival_times ≠ [] then
        (if fs.all_inter_arrival_times.length > 1 then stdQ fs.all_inter_arrival_times else 0)
      else 0
    fwd_inter_arrival_time_mean :=
      if fs.fwd_inter_arrival_times ≠ [] then meanQ fs.fwd_inter_arrival_times else 0
    bwd_inter_arrival_time_mean :=
      if fs.bwd_inter_arrival_times ≠ [] then meanQ fs.bwd_inter_arrival_times else 0
    active_mean :=
      if fs.active_periods ≠ [] then meanQ fs.active_periods else 0
    active_std :=
      if fs.active_periods ≠ [] then
        (if fs.active_periods.length > 1 then stdQ fs.active_periods else 0)
      else 0
    idle_mean :=
      if fs.idle_periods ≠ [] then meanQ fs.idle_periods else 0
    idle_std :=
      if fs.idle_periods ≠ [] then
        (if fs.idle_periods.length > 1 then stdQ fs.idle_periods else 0)
      else 0
    tcp_window_size_mean :=
      if fs.tcp_window_sizes ≠ [] then meanN fs.tcp_window_sizes else 0
    tcp_flags_count := (fs.tcp_flags_count.map (fun kv => kv.2)).sum
    flow_bytes_total := fs.fwd_bytes + fs.bwd_bytes }

/-- `NetworkFeatures.__init__`: the per-packet feature record with its
default values (`label = "BENIGN"`). -/
structure NetworkFeatures where
  src_ip : String := ""
  dst_ip : String := ""
  src_port : Nat := 0
  dst_port : Nat := 0
  protocol : Nat := 0
  packet_length : Nat := 0
  header_length : Nat := 0
  ttl : Nat := 0
  tos : Nat := 0
  tcp_flags : Nat := 0
  tcp_window : Nat := 0
  tcp_seq : Nat := 0
  tcp_ack : Nat := 0
  tcp_flag_fin : Nat := 0
  tcp_flag_syn : Nat := 0
  tcp_flag_rst : Nat := 0
  tcp_flag_psh : Nat := 0
  tcp_flag_ack : Nat := 0
  tcp_flag_urg : Nat := 0
  timestamp : ℤ := 0
  flow_duration : ℚ := 0
  total_fwd_packets : Nat := 0
  total_bwd_packets : Nat := 0
  total_length_fwd_packets : Nat := 0
  total_length_bwd_packets : Nat := 0
  packet_length_mean : ℚ := 0
  packet_length_std : ℝ := 0
  packet_length_min : Nat := 0
  packet_length_max : Nat := 0
  packet_length_variance : ℚ := 0
  fwd_packet_length_mean : ℚ := 0
  flow_bytes_per_second : ℚ := 0
  flow_packets_per_second : ℚ := 0
  fwd_packets_per_second : ℚ := 0
  bwd_packets_per_second : ℚ := 0
  flow_inter_arrival_time_mean : ℚ := 0
  flow_inter_arrival_time_std : ℝ := 0
  fwd_inter_arrival_time_mean : ℚ := 0
  bwd_inter_arrival_time_mean : ℚ := 0
  active_mean : ℚ := 0
  active_std : ℝ := 0
  idle_mean : ℚ := 0
  idle_std : ℝ := 0
  tcp_window_size_mean : ℚ := 0
  tcp_flags_count : Nat := 0
  flow_bytes_total : Nat := 0
  label : String := "BENIGN"

/-- Byte `i` of a frame (frames whose length was checked beforehand; `0` is
a don't-care default past the end). -/
def byteAt (data : List Nat) (i : Nat) : Nat := data.getD i 0

/-- Big-endian 16-bit field at offset `i` (`struct` format `H`). -/
def be16 (data : List Nat) (i : Nat) : Nat := byteAt data i * 256 + byteAt data (i + 1)

/-- Big-endian 32-bit field at offset `i` (`struct` format `L`). -/
def be32 (data : List Nat) (i : Nat) : Nat := be16 data i * 65536 + be16 data (i + 2)

/-- `'%02x' % b`: two-digit lowercase hex of a byte. -/
def hexByte (b : Nat) : String :=
  let ds := Nat.toDigits 16 b
  String.mk (if ds.length < 2 then '0' :: ds else ds)

/-- `':'.join(['%02x' % b for b in mac_bytes])`. -/
def macStr (mac : List Nat) : String :=
  String.intercalate ":" (mac.map hexByte)

/-- `PacketParser.parse_ethernet_header`: `None`s on frames shorter than 14
bytes, otherwise `(dest_mac, src_mac, eth_type)` with the EtherType read
big-endian from bytes 12–13. -/
def parseEthernetHeader (data : List Nat) : Option (String × String × Nat) :=
  if data.length < 14 then none
  else some (macStr (data.take 6), macStr ((data.drop 6).take 6), be16 data 12)

/-- `socket.inet_ntoa`: dotted-decimal rendering of four address bytes. -/
def inetNtoa (a b c d : Nat) : String :=
  toString a ++ "." ++ toString b ++ "." ++ toString c ++ "." ++ toString d

/-- The dictionary built by `PacketParser.parse_ip_header`. -/
structure IpInfo where
  version : Nat
  header_length : Nat
  tos : Nat
  total_length : Nat
  ttl : Nat
  protocol : Nat
  src_ip : String
  dst_ip : String
deriving DecidableEq

/-- `PacketParser.parse_ip_header(packet_data, offset=14)`: requires 20
bytes at `offset`; returns the field dictionary and the transport offset
`offset + IHL·4`. The version nibble is extracted but not validated. -/
def parseIpHeader (data : List Nat) (offset : Nat := 14) : Option (IpInfo × Nat) :=
  if data.length < offset + 20 then none
  else
    let version_ihl := byteAt data offset
    let ihl := version_ihl % 16
    let header_length := ihl * 4
    some ({ version := version_ihl / 16
            header_length := header_length
            tos := byteAt data (offset + 1)
            total_length := be16 data (offset + 2)
            ttl := byteAt data (offset + 8)
            protocol := byteAt data (offset + 9)
            src_ip := inetNtoa (byteAt data (offset + 12)) (byteAt data (offset + 13))
                        (byteAt data (offset + 14)) (byteAt data (offset + 15))
            dst_ip := inetNtoa (byteAt data (offset + 16)) (byteAt data (offset + 17))
                        (byteAt data (offset + 18)) (byteAt data (offset + 19)) },
          offset + header_length)

/-- The dictionary built by `PacketParser.parse_tcp_header`. -/
structure TcpInfo where
  src_port : Nat
  dst_port : Nat
  seq_num : Nat
  ack_num : Nat
  flags : Nat
  window : Nat
  flag_fin : Nat
  flag_syn : Nat
  flag_rst : Nat
  flag_psh : Nat
  flag_ack : Nat
  flag_urg : Nat
deriving DecidableEq

/-- `PacketParser.parse_tcp_header(packet_data, offset)`: `{}` (here `none`)
when fewer than 20 bytes remain. -/
def parseTcpHeader (data : List Nat) (offset : Nat) : Option TcpInfo :=
  if data.length < offset + 20 then none
  else
    let flags := byteAt data (offset + 13)
    some { src_port := be16 data offset
           dst_port := be16 data (offset + 2)
           seq_num := be32 data (offset + 4)
           ack_num := be32 data (offset + 8)
           flags := flags
           window := be16 data (offset + 14)
           flag_fin := flags &&& 0x01
           flag_syn := (flags &&& 0x02) >>> 1
           flag_rst := (flags &&& 0x04) >>> 2
           flag_psh := (flags &&& 0x08) >>> 3
           flag_ack := (flags &&& 0x10) >>> 4
           flag_urg := (flags &&& 0x20) >>> 5 }

/-- The dictionary built by `PacketParser.parse_udp_header`. -/
structure UdpInfo where
  src_port : Nat
  dst_port : Nat
  length : Nat
  checksum : Nat
deriving DecidableEq

/-- `PacketParser.parse_udp_header(packet_data, offset)`: `{}` (here `none`)
when fewer than 8 bytes remain. -/
def parseUdpHeader (data : List Nat) (offset : Nat) : Option UdpInfo :=
  if data.length < offset + 8 then none
  else some { src_port := be16 data offset
              dst_port := be16 data (offset + 2)
              length := be16 data (offset + 4)
              checksum := be16 data (offset + 6) }

/-- Dict lookup `flow_states[key]` under `FlowKey.__eq__`; the flow table
`PacketParser.flow_states` is a Python dict in insertion order, modelled
as an association list. -/
def lookupFlow : List (FlowKey × FlowState) → FlowKey → Option FlowState
  | [], _ => none
  | (a, v) :: rest, k => if fkBeq a k then some v else lookupFlow rest k

/-- Dict assignment `flow_states[key] = state`: replaces the value under an
existing (direction-insensitively equal) key, keeping the original key
object and its position; appends otherwise. -/
def setFlow : List (FlowKey × FlowState) → FlowKey → FlowState → List (FlowKey × FlowState)
  | [], k, v => [(k, v)]
  | (a, w) :: rest, k, v =>
      if fkBeq a k then (a, v) :: rest else (a, w) :: setFlow rest k v

/-- The removal test inside `PacketParser.cleanup_old_flows`:
`if flow_state.last_time and flow_state.last_time < cutoff_time`.
Python truthiness makes a `last_time` of exactly `0.0` (and of course
`None`) fail the first conjunct, so such flows are never removed. -/
def flowExpired (current_time : ℚ) (st : FlowState) : Bool :=
  match st.last_time with
  | some t => decide (t ≠ 0) && decide (t < current_time - 300)
  | none => false

/-- `PacketParser.cleanup_old_flows()`: runs at most once per 60 s interval
(gated by `last_cleanup`); when it runs it deletes the expired entries and
records the sweep time. `current_time` stands for `time.time()`. -/
def cleanupOldFlows (flows : List (FlowKey × FlowState)) (last_cleanup : ℚ)
    (current_time : ℚ) : List (FlowKey × FlowState) × ℚ :=
  if current_time - last_cleanup > 60 then
    (flows.filter (fun kv => ! flowExpired current_time kv.2), current_time)
  else
    (flows, last_cleanup)

/-- Python `int()` applied to a float/rational: truncation toward zero. -/
def pyInt (q : ℚ) : ℤ := if 0 ≤ q then ⌊q⌋ else ⌈q⌉

/-- `PacketParser.parse_packet(packet_data, timestamp)`.

The class-level state (`flow_states`, `last_cleanup`) is passed and
returned explicitly; `current_time` stands for the `time.time()` read in
`cleanup_old_flows`. The source wraps the body in `try/except Exception`,
setting `label = "PARSING_ERROR"` on an exception; every operation in the
body is guarded (all `struct.unpack` calls sit behind length checks, all
statistics behind non-emptiness checks, all divisions behind positivity
checks), so no modelled operation can raise and the handler is
unreachable: the function is total as written here. -/
noncomputable def parsePacket (flows : List (FlowKey × FlowState)) (last_cleanup : ℚ)
    (current_time : ℚ) (data : List Nat) (timestamp : ℚ) :
    (List (FlowKey × FlowState) × ℚ) × NetworkFeatures :=
  let features : NetworkFeatures :=
    { timestamp := pyInt (timestamp * 1000000), packet_length := data.length }
  -- Clean up old flows periodically
  let st := cleanupOldFlows flows last_cleanup current_time
  let flows := st.1
  let last_cleanup := st.2
  match parseEthernetHeader data with
  | none => ((flows, last_cleanup), features)
  | some (_, _, eth_type) =>
    -- Check for IPv4 (0x0800)
    if eth_type = 0x0800 then
      match parseIpHeader data 14 with
      | none => ((flows, last_cleanup), features)
      | some (ip_info, tcp_offset) =>
        let features := { features with
          src_ip := ip_info.src_ip
          dst_ip := ip_info.dst_ip
          protocol := ip_info.protocol
          ttl := ip_info.ttl
          tos := ip_info.tos
          header_length := ip_info.header_length }
        -- Parse transport layer
        let step : NetworkFeatures × Nat × Nat :=
          if ip_info.protocol = 6 then
            match parseTcpHeader data tcp_offset with
            | some t =>
                ({ features with
                    src_port := t.src_port
                    dst_port := t.dst_port
                    tcp_seq := t.seq_num
                    tcp_ack := t.ack_num
                    tcp_flags := t.flags
                    tcp_window := t.window
                    tcp_flag_fin := t.flag_fin
                    tcp_flag_syn := t.flag_syn
                    tcp_flag_rst := t.flag_rst
                    tcp_flag_psh := t.flag_psh
                    tcp_flag_ack := t.flag_ack
                    tcp_flag_urg := t.flag_urg }, t.flags, t.window)
            | none => (features, 0, 0)
          else if ip_info.protocol = 17 then
            match parseUdpHeader data tcp_offset with
            | some u =>
                ({ features with src_port := u.src_port, dst_port := u.dst_port }, 0, 0)
            | none => (features, 0, 0)
          else (features, 0, 0)
        let features := step.1
        let tcp_flags := step.2.1
        let tcp_window := step.2.2
        -- Create flow key and update flow state
        let flow_key := mkFlowKey features.src_ip features.dst_ip
          features.src_port features.dst_port features.protocol
        -- Initialize or get existing flow state
        let flows := match lookupFlow flows flow_key with
          | none => flows ++ [(flow_key, initFlowState)]
          | some _ => flows
        let flow_state := (lookupFlow flows flow_key).getD initFlowState
        -- Update flow state
        let flow_state := updateFS flow_state features.packet_length timestamp
          flow_key.is_forward tcp_flags tcp_window
        let flows := setFlow flows flow_key flow_state
        -- Calculate flow statistics
        let fst := calcFlowStats flow_state timestamp
        let features := { features with
          flow_duration := fst.flow_duration
          total_fwd_packets := fst.total_fwd_packets
          total_bwd_packets := fst.total_bwd_packets
          total_length_fwd_packets := fst.total_length_fwd_packets
          total_length_bwd_packets := fst.total_length_bwd_packets
          packet_length_mean := fst.packet_length_mean
          packet_length_std := fst.packet_length_std
          packet_length_min := fst.packet_length_min
          packet_length_max := fst.packet_length_max
          packet_length_variance := fst.packet_length_variance
          fwd_packet_length_mean := fst.fwd_packet_length_mean
          flow_bytes_per_second := fst.flow_bytes_per_second
          flow_packets_per_second := fst.flow_packets_per_second
          fwd_packets_per_second := fst.fwd_packets_per_second
          bwd_packets_per_second := fst.bwd_packets_per_second
          flow_inter_arrival_time_mean := fst.flow_inter_arrival_time_mean
          flow_inter_arrival_time_std := fst.flow_inter_arrival_time_std
          fwd_inter_arrival_time_mean := fst.fwd_inter_arrival_time_mean
          bwd_inter_arrival_time_mean := fst.bwd_inter_arrival_time_mean
          active_mean := fst.active_mean
          active_std := fst.active_std
          idle_mean := fst.idle_mean
          idle_std := fst.idle_std
          tcp_window_size_mean := fst.tcp_window_size_mean
          tcp_flags_count := fst.tcp_flags_count
          flow_bytes_total := fst.flow_bytes_total }
        ((flows, last_cleanup), features)
    else ((flows, last_cleanup), features)

/-!
The per-burst body of `DPDKPacketCapture.start_capture` (packet_capture.py):

    for mbuf_ptr in mbufs:
        try:
            mbuf = RteMbuf.from_address(mbuf_ptr)
            packet_data = mbuf.get_packet_data()
            if packet_data:
                ...
                callback(packet_data, timestamp)
                ...
        except Exception as e:
            self.logger.warning(...)
        finally:
            self.dpdk.free_packet(mbuf_ptr)

Each buffer handle is processed under an environment that says how its
iteration goes: the struct conversion or data extraction raises, the data
is falsy (`None`/empty), the callback succeeds, or the callback raises.
The observable effects are recorded as an event trace.
-/

/-- How one buffer's iteration of the capture loop goes. -/
inductive MbufOutcome where
  /-- `RteMbuf.from_address` or `get_packet_data` raises an `Exception`. -/
  | exc : MbufOutcome
  /-- `get_packet_data` returns falsy data (`None` or `b""`): no callback. -/
  | noData : MbufOutcome
  /-- the callback runs and returns. -/
  | ok (data : List Nat) : MbufOutcome
  /-- the callback raises an `Exception` (caught by the `except` clause). -/
  | cbExc (data : List Nat) : MbufOutcome
deriving DecidableEq

/-- An observable effect of the capture loop. -/
inductive CaptureEvent where
  /-- `callback(packet_data, timestamp)` was invoked for handle `h`. -/
  | callback (h : Nat) (data : List Nat) : CaptureEvent
  /-- `logger.warning("Error processing packet: ...")`. -/
  | warned (h : Nat) : CaptureEvent
  /-- `self.dpdk.free_packet(mbuf_ptr)` for handle `h`. -/
  | freed (h : Nat) : CaptureEvent
deriving DecidableEq

/-- One iteration of the `for mbuf_ptr in mbufs` loop: the `try` body (or the
`except` clause once an exception is caught), then the `finally` clause. -/
def processMbuf (env : Nat → MbufOutcome) (h : Nat) : List CaptureEvent :=
  (match env h with
   | .exc => [.warned h]
   | .noData => []
   | .ok d => [.callback h d]
   | .cbExc d => [.callback h d, .warned h]) ++ [.freed h]

/-- The whole burst: each received handle is processed in order. -/
def processBurst (env : Nat → MbufOutcome) (mbufs : List Nat) : List CaptureEvent :=
  (mbufs.map (processMbuf env)).flatten

/-- The sequence of handles released via `free_packet` in a trace. -/
def freedHandles (evs : List CaptureEvent) : List Nat :=
  evs.filterMap (fun e => match e with | .freed h => some h | _ => none)

/-- The comparison the spec describes for flow-key canonicalization,
written from the spec's words (for comparison with the code's `pairLt`):
endpoints ordered lexicographically as (4-byte IP, 16-bit port) tuples,
the IP itself compared bytewise. -/
def specNumPairLt (ip1 : Nat × Nat × Nat × Nat) (p1 : Nat)
    (ip2 : Nat × Nat × Nat × Nat) (p2 : Nat) : Bool :=
  (decide (ip1.1 < ip2.1) ||
    (decide (ip1.1 = ip2.1) && (decide (ip1.2.1 < ip2.2.1) ||
      (decide (ip1.2.1 = ip2.2.1) && (decide (ip1.2.2.1 < ip2.2.2.1) ||
        (decide (ip1.2.2.1 = ip2.2.2.1) && decide (ip1.2.2.2 < ip2.2.2.2))))))) ||
  (decide (ip1 = ip2) && decide (p1 < p2))

/-- The inductive invariant behind C2's count/length identities. -/
def FSInv (s : FlowState) : Prop :=
  s.total_packets = s.fwd_packets + s.bwd_packets ∧
  s.fwd_bytes = s.fwd_packet_lengths.sum ∧
  s.all_inter_arrival_times.length = s.total_packets - 1 ∧
  (s.last_packet_time = none ↔ s.total_packets = 0)

/-- The spec's idle-gap scenario: three TCP packets of one flow at
ts = 0, 1.5 and 3.0 s (SYN then two ACKs, window 8192). -/
def idleDemoUpdates : List UpdateArgs :=
  [⟨74, 0, true, 2, 8192⟩, ⟨74, 3/2, true, 16, 8192⟩, ⟨74, 3, true, 16, 8192⟩]

/-- A concrete flow key (for the sweep counterexample). -/
def zeroTimeKey : FlowKey := mkFlowKey "10.0.0.1" "10.0.0.2" 5000 80 6

/-- A flow whose only packet arrived at ts = 0.0, so `last_time = 0.0`. -/
def zeroTimeState : FlowState := updateFS initFlowState 60 0 true 0 0

/-- A 14-byte Ethernet frame with EtherType 0x86DD (IPv6). -/
def nonIpv4Frame : List Nat := [0, 0, 0, 0, 0, 0, 0, 0, 0, 0, 0, 0, 0x86, 0xDD]

/-- A 34-byte EtherType-0x0800 frame whose IP version nibble is 6
(first IP byte 0x65: version 6, IHL 5), protocol 17, src 1.2.3.4,
dst 5.6.7.8. -/
def version6Frame : List Nat :=
  [0, 0, 0, 0, 0, 0, 0, 0, 0, 0, 0, 0, 0x08, 0x00,
   0x65, 0, 0, 40, 0, 0, 0, 0, 64, 17, 0, 0, 1, 2, 3, 4, 5, 6, 7, 8]

theorem charListLt_irrefl (x : List Char) : charListLt x x = false := by
  induction x with
  | nil => rfl
  | cons a as ih => simp [charListLt, ih]

theorem charListLt_asymm :
    ∀ {x y : List Char}, charListLt x y = true → charListLt y x = false := by
  intro x
  induction x with
  | nil =>
      intro y h
      cases y with
      | nil => simp [charListLt] at h
      | cons b bs => simp [charListLt]
  | cons a as ih =>
      intro y h
      cases y with
      | nil => simp [charListLt] at h
      | cons b bs =>
          by_cases h1 : a.toNat < b.toNat
          · have h2 : ¬ b.toNat < a.toNat := Nat.lt_asymm h1
            simp [charListLt, h1, h2]
          · by_cases h2 : b.toNat < a.toNat
            · simp [charListLt, h1, h2] at h
            · simp only [charListLt, h1, h2, if_false] at h ⊢
              exact ih h

theorem charListLt_total :
    ∀ {x y : List Char}, x ≠ y → charListLt x y = false → charListLt y x = true := by
  intro x
  induction x with
  | nil =>
      intro y hne h
      cases y with
      | nil => exact absurd rfl hne
      | cons b bs => simp [charListLt] at h
  | cons a as ih =>
      intro y hne h
      cases y with
      | nil => simp [charListLt]
      | cons b bs =>
          by_cases h1 : a.toNat < b.toNat
          · simp [charListLt, h1] at h
          · by_cases h2 : b.toNat < a.toNat
            · simp [charListLt, h2]
            · have hab : a = b := Char.ext
                (UInt32.ext (Nat.le_antisymm (Nat.not_lt.mp h2) (Nat.not_lt.mp h1)))
              subst hab
              have hne' : as ≠ bs := fun hc => hne (by rw [hc])
              simp only [charListLt, h1, h2, if_false] at h ⊢
              exact ih hne' h

theorem strLt_irrefl (s : String) : strLt s s = false := charListLt_irrefl _

theorem strLt_asymm {s t : String} (h : strLt s t = true) : strLt t s = false :=
  charListLt_asymm h

theorem strLt_ne {s t : String} (h : strLt s t = true) : s ≠ t := by
  intro he
  subst he
  rw [strLt_irrefl] at h
  exact Bool.false_ne_true h

theorem strLt_total {s t : String} (hne : s ≠ t) (h : strLt s t = false) :
    strLt t s = true := by
  refine charListLt_total (fun hd => hne ?_) h
  cases s
  cases t
  exact congrArg String.mk (by simpa using hd)

theorem pairLt_asymm {x y : String × Nat} (h : pairLt x y = true) :
    pairLt y x = false := by
  rcases (by simpa [pairLt, Bool.or_eq_true, Bool.and_eq_true, decide_eq_true_iff] using h :
      strLt x.1 y.1 = true ∨ (x.1 = y.1 ∧ x.2 < y.2)) with h1 | ⟨he, h2⟩
  · simp [pairLt, strLt_asymm h1, Ne.symm (strLt_ne h1)]
  · have hlt : ¬ y.2 < x.2 := Nat.lt_asymm h2
    simp [pairLt, ← he, strLt_irrefl, hlt]

theorem pairLt_total {x y : String × Nat} (hne : x ≠ y) (h : pairLt x y = false) :
    pairLt y x = true := by
  have h' : strLt x.1 y.1 = false ∧ ¬ (x.1 = y.1 ∧ x.2 < y.2) := by
    constructor
    · cases hs : strLt x.1 y.1
      · rfl
      · simp [pairLt, hs] at h
    · rintro ⟨he, h2⟩
      simp [pairLt, he, h2] at h
  by_cases he : x.1 = y.1
  · have h2 : ¬ x.2 < y.2 := fun hc => h'.2 ⟨he, hc⟩
    have hne2 : x.2 ≠ y.2 := fun hc => hne (Prod.ext he hc)
    have h3 : y.2 < x.2 := Nat.lt_of_le_of_ne (Nat.not_lt.mp h2) (Ne.symm hne2)
    simp [pairLt, he.symm, h3]
  · have h1 : strLt y.1 x.1 = true := strLt_total he h'.1
    simp [pairLt, h1]

theorem updateFS_total_packets (s : FlowState) (pl : Nat) (ts : ℚ) (fwd : Bool)
    (fl win : Nat) : (updateFS s pl ts fwd fl win).total_packets = s.total_packets + 1 := by
  obtain ⟨st, lt, tp, fp, fb, fpl, fiat, flt, bp, bb, bpl, biat, blt, apl, aiat, lpt, tfc, tws, ap, ip, lat⟩ := s
  cases st <;> cases lpt <;> cases fwd <;> cases lat <;> cases flt <;> cases blt <;>
    by_cases hfl : fl > 0 <;> by_cases hwin : win > 0 <;>
    simp [updateFS, hfl, hwin] <;> split <;> rfl

theorem updateFS_fwd_packets (s : FlowState) (pl : Nat) (ts : ℚ) (fwd : Bool)
    (fl win : Nat) : (updateFS s pl ts fwd fl win).fwd_packets
      = if fwd then s.fwd_packets + 1 else s.fwd_packets := by
  obtain ⟨st, lt, tp, fp, fb, fpl, fiat, flt, bp, bb, bpl, biat, blt, apl, aiat, lpt, tfc, tws, ap, ip, lat⟩ := s
  cases st <;> cases lpt <;> cases fwd <;> cases lat <;> cases flt <;> cases blt <;>
    by_cases hfl : fl > 0 <;> by_cases hwin : win > 0 <;>
    simp [updateFS, hfl, hwin] <;> split <;> rfl

theorem updateFS_bwd_packets (s : FlowState) (pl : Nat) (ts : ℚ) (fwd : Bool)
    (fl win : Nat) : (updateFS s pl ts fwd fl win).bwd_packets
      = if fwd then s.bwd_packets else s.bwd_packets + 1 := by
  obtain ⟨st, lt, tp, fp, fb, fpl, fiat, flt, bp, bb, bpl, biat, blt, apl, aiat, lpt, tfc, tws, ap, ip, lat⟩ := s
  cases st <;> cases lpt <;> cases fwd <;> cases lat <;> cases flt <;> cases blt <;>
    by_cases hfl : fl > 0 <;> by_cases hwin : win > 0 <;>
    simp [updateFS, hfl, hwin] <;> split <;> rfl

theorem updateFS_fwd_bytes (s : FlowState) (pl : Nat) (ts : ℚ) (fwd : Bool)
    (fl win : Nat) : (updateFS s pl ts fwd fl win).fwd_bytes
      = if fwd then s.fwd_bytes + pl else s.fwd_bytes := by
  obtain ⟨st, lt, tp, fp, fb, fpl, fiat, flt, bp, bb, bpl, biat, blt, apl, aiat, lpt, tfc, tws, ap, ip, lat⟩ := s
  cases st <;> cases lpt <;> cases fwd <;> cases lat <;> cases flt <;> cases blt <;>
    by_cases hfl : fl > 0 <;> by_cases hwin : win > 0 <;>
    simp [updateFS, hfl, hwin] <;> split <;> rfl

theorem updateFS_fwd_packet_lengths (s : FlowState) (pl : Nat) (ts : ℚ) (fwd : Bool)
    (fl win : Nat) : (updateFS s pl ts fwd fl win).fwd_packet_lengths
      = if fwd then s.fwd_packet_lengths ++ [pl] else s.fwd_packet_lengths := by
  obtain ⟨st, lt, tp, fp, fb, fpl, fiat, flt, bp, bb, bpl, biat, blt, apl, aiat, lpt, tfc, tws, ap, ip, lat⟩ := s
  cases st <;> cases lpt <;> cases fwd <;> cases lat <;> cases flt <;> cases blt <;>
    by_cases hfl : fl > 0 <;> by_cases hwin : win > 0 <;>
    simp [updateFS, hfl, hwin] <;> split <;> rfl

theorem updateFS_all_inter_arrival_times (s : FlowState) (pl : Nat) (ts : ℚ) (fwd : Bool)
    (fl win : Nat) : (updateFS s pl ts fwd fl win).all_inter_arrival_times
      = match s.last_packet_time with
        | some lp => s.all_inter_arrival_times ++ [ts - lp]
        | none => s.all_inter_arrival_times := by
  obtain ⟨st, lt, tp, fp, fb, fpl, fiat, flt, bp, bb, bpl, biat, blt, apl, aiat, lpt, tfc, tws, ap, ip, lat⟩ := s
  cases st <;> cases lpt <;> cases fwd <;> cases lat <;> cases flt <;> cases blt <;>
    by_cases hfl : fl > 0 <;> by_cases hwin : win > 0 <;>
    simp [updateFS, hfl, hwin] <;> split <;> rfl

theorem updateFS_last_packet_time (s : FlowState) (pl : Nat) (ts : ℚ) (fwd : Bool)
    (fl win : Nat) : (updateFS s pl ts fwd fl win).last_packet_time = some ts := by
  obtain ⟨st, lt, tp, fp, fb, fpl, fiat, flt, bp, bb, bpl, biat, blt, apl, aiat, lpt, tfc, tws, ap, ip, lat⟩ := s
  cases st <;> cases lpt <;> cases fwd <;> cases lat <;> cases flt <;> cases blt <;>
    by_cases hfl : fl > 0 <;> by_cases hwin : win > 0 <;>
    simp [updateFS, hfl, hwin] <;> split <;> rfl

theorem updateFS_start_time (s : FlowState) (pl : Nat) (ts : ℚ) (fwd : Bool)
    (fl win : Nat) : (updateFS s pl ts fwd fl win).start_time
      = some (s.start_time.getD ts) := by
  obtain ⟨st, lt, tp, fp, fb, fpl, fiat, flt, bp, bb, bpl, biat, blt, apl, aiat, lpt, tfc, tws, ap, ip, lat⟩ := s
  cases st <;> cases lpt <;> cases fwd <;> cases lat <;> cases flt <;> cases blt <;>
    by_cases hfl : fl > 0 <;> by_cases hwin : win > 0 <;>
    simp [updateFS, hfl, hwin] <;> split <;> rfl

theorem updateFS_last_time (s : FlowState) (pl : Nat) (ts : ℚ) (fwd : Bool)
    (fl win : Nat) : (updateFS s pl ts fwd fl win).last_time = some ts := by
  obtain ⟨st, lt, tp, fp, fb, fpl, fiat, flt, bp, bb, bpl, biat, blt, apl, aiat, lpt, tfc, tws, ap, ip, lat⟩ := s
  cases st <;> cases lpt <;> cases fwd <;> cases lat <;> cases flt <;> cases blt <;>
    by_cases hfl : fl > 0 <;> by_cases hwin : win > 0 <;>
    simp [updateFS, hfl, hwin] <;> split <;> rfl

theorem updateFS_last_activity_time (s : FlowState) (pl : Nat) (ts : ℚ) (fwd : Bool)
    (fl win : Nat) : (updateFS s pl ts fwd fl win).last_activity_time = some ts := by
  obtain ⟨st, lt, tp, fp, fb, fpl, fiat, flt, bp, bb, bpl, biat, blt, apl, aiat, lpt, tfc, tws, ap, ip, lat⟩ := s
  cases st <;> cases lpt <;> cases fwd <;> cases lat <;> cases flt <;> cases blt <;>
    by_cases hfl : fl > 0 <;> by_cases hwin : win > 0 <;>
    simp [updateFS, hfl, hwin] <;> split <;> rfl

theorem FSInv_init : FSInv initFlowState := by
  refine ⟨rfl, rfl, rfl, by simp [initFlowState]⟩

theorem FSInv_step (s : FlowState) (pl : Nat) (ts : ℚ) (fwd : Bool) (fl win : Nat)
    (h : FSInv s) : FSInv (updateFS s pl ts fwd fl win) := by
  obtain ⟨h1, h2, h3, h4⟩ := h
  refine ⟨?_, ?_, ?_, ?_⟩
  · rw [updateFS_total_packets, updateFS_fwd_packets, updateFS_bwd_packets]
    cases fwd <;> simp <;> omega
  · rw [updateFS_fwd_bytes, updateFS_fwd_packet_lengths]
    cases fwd <;> simp [h2]
  · rw [updateFS_all_inter_arrival_times, updateFS_total_packets]
    cases hlp : s.last_packet_time with
    | none =>
        have h0 : s.total_packets = 0 := h4.mp hlp
        simp only []
        omega
    | some lp =>
        have h0 : s.total_packets ≠ 0 := fun hc => by
          rw [h4.mpr hc] at hlp
          exact Option.noConfusion hlp
        simp only [List.length_append, List.length_singleton]
        omega
  · rw [updateFS_last_packet_time, updateFS_total_packets]
    simp

theorem FSInv_applyUpdates (us : List UpdateArgs) (s : FlowState) (h : FSInv s) :
    FSInv (applyUpdates s us) := by
  induction us generalizing s with
  | nil => exact h
  | cons u rest ih => exact ih _ (FSInv_step s u.pl u.ts u.fwd u.flags u.win h)

theorem applyUpdates_mono_aux (us : List UpdateArgs) (s : FlowState) (t0 tl : ℚ)
    (hs : s.start_time = some t0) (hl : s.last_time = some tl) (h0 : t0 ≤ tl)
    (hsorted : List.Pairwise (· ≤ ·) (us.map (fun u => u.ts)))
    (hfut : ∀ u ∈ us, tl ≤ u.ts) :
    ∀ t0' tl', (applyUpdates s us).start_time = some t0' →
      (applyUpdates s us).last_time = some tl' → t0' ≤ tl' := by
  induction us generalizing s t0 tl with
  | nil =>
      intro t0' tl' h1 h2
      rw [applyUpdates] at h1 h2
      simp only [List.foldl_nil] at h1 h2
      rw [hs] at h1
      rw [hl] at h2
      cases h1
      cases h2
      exact h0
  | cons u rest ih =>
      intro t0' tl' h1 h2
      rw [applyUpdates, List.foldl_cons] at h1 h2
      have hts : tl ≤ u.ts := hfut u (List.mem_cons_self u rest)
      have hp : (∀ a ∈ rest, u.ts ≤ a.ts) ∧
          List.Pairwise (· ≤ ·) (rest.map (fun u => u.ts)) := by
        simpa using hsorted
      refine ih (updateFS s u.pl u.ts u.fwd u.flags u.win) t0 u.ts ?_ ?_ ?_ hp.2 ?_ t0' tl' h1 h2
      · rw [updateFS_start_time, hs]
        rfl
      · exact updateFS_last_time s u.pl u.ts u.fwd u.flags u.win
      · exact le_trans h0 hts
      · intro v hv
        exact hp.1 v hv

/-- C2 (amended): starting from a freshly initialized `FlowState`, after any
finite sequence of `update` calls `total_packets = fwd_packets + bwd_packets`,
`fwd_bytes = Σ fwd_packet_lengths`, and
`|all_inter_arrival_times| = max(0, total_packets − 1)` hold unconditionally,
and `last_time ≥ start_time` holds whenever the timestamps passed to the
updates are non-decreasing (the code sets `last_time` to the latest
timestamp unconditionally, so an out-of-order timestamp can break it). -/
theorem flowState_invariants (us : List UpdateArgs) :
    (applyUpdates initFlowState us).total_packets
      = (applyUpdates initFlowState us).fwd_packets
        + (applyUpdates initFlowState us).bwd_packets ∧
    (applyUpdates initFlowState us).fwd_bytes
      = (applyUpdates initFlowState us).fwd_packet_lengths.sum ∧
    (applyUpdates initFlowState us).all_inter_arrival_times.length
      = (applyUpdates initFlowState us).total_packets - 1 ∧
    (List.Pairwise (· ≤ ·) (us.map (fun u => u.ts)) →
      ∀ t0 tl, (applyUpdates initFlowState us).start_time = some t0 →
        (applyUpdates initFlowState us).last_time = some tl → t0 ≤ tl) := by
  obtain ⟨h1, h2, h3, _⟩ := FSInv_applyUpdates us initFlowState FSInv_init
  refine ⟨h1, h2, h3, ?_⟩
  intro hsorted t0 tl ht0 htl
  cases us with
  | nil =>
      rw [applyUpdates, List.foldl_nil] at ht0
      exact Option.noConfusion ht0
  | cons u rest =>
      rw [applyUpdates, List.foldl_cons] at ht0 htl
      have hp : (∀ a ∈ rest, u.ts ≤ a.ts) ∧
          List.Pairwise (· ≤ ·) (rest.map (fun u => u.ts)) := by
        simpa using hsorted
      refine applyUpdates_mono_aux rest _ u.ts u.ts ?_ ?_ le_rfl hp.2 ?_ t0 tl ht0 htl
      · rw [updateFS_start_time]
        rfl
      · exact updateFS_last_time _ u.pl u.ts u.fwd u.flags u.win
      · intro v hv
        exact hp.1 v hv

/-- C2 witness: two forward updates of 100 and 50 bytes at ts 1 and 2. -/
theorem flowState_invariants_witness :
    (applyUpdates initFlowState [⟨100, 1, true, 0, 0⟩, ⟨50, 2, false, 0, 0⟩]).total_packets
      = (applyUpdates initFlowState [⟨100, 1, true, 0, 0⟩, ⟨50, 2, false, 0, 0⟩]).fwd_packets
        + (applyUpdates initFlowState [⟨100, 1, true, 0, 0⟩, ⟨50, 2, false, 0, 0⟩]).bwd_packets ∧
    (1 : ℚ) ≤ 2 := by
  refine ⟨(flowState_invariants [⟨100, 1, true, 0, 0⟩, ⟨50, 2, false, 0, 0⟩]).1, ?_⟩
  refine (flowState_invariants [⟨100, 1, true, 0, 0⟩, ⟨50, 2, false, 0, 0⟩]).2.2.2 ?_ 1 2 ?_ ?_
  · norm_num
  · norm_num [applyUpdates, updateFS, initFlowState]
  · norm_num [applyUpdates, updateFS, initFlowState]

/-- C2 counterexample: with a decreasing timestamp sequence (ts 10 then
ts 5) the code stores `start_time = 10` but `last_time = 5`, so
`last_time ≥ start_time` fails for an arbitrary update sequence. -/
theorem flowState_last_time_counterexample :
    (applyUpdates initFlowState [⟨100, 10, true, 0, 0⟩, ⟨100, 5, true, 0, 0⟩]).start_time
      = some 10 ∧
    (applyUpdates initFlowState [⟨100, 10, true, 0, 0⟩, ⟨100, 5, true, 0, 0⟩]).last_time
      = some 5 ∧
    ¬ ((10 : ℚ) ≤ 5) := by
  refine ⟨?_, ?_, by norm_num⟩ <;> norm_num [applyUpdates, updateFS, initFlowState]

/-- C3 counterexample: the endpoint pair `9.0.0.1:1` is smaller than
`10.0.0.2:1` under the claimed (4-byte IP, 16-bit port) lexicographic
order, yet `FlowKey` puts `10.0.0.2` into the `(ip_a, port_a)` slot and
sets `is_forward = False`, because it compares the dotted-decimal
*strings* (`"10.0.0.2" < "9.0.0.1"` since `'1' < '9'`). -/
theorem flowKey_numeric_order_counterexample :
    specNumPairLt (9, 0, 0, 1) 1 (10, 0, 0, 2) 1 = true ∧
    (mkFlowKey (inetNtoa 9 0 0 1) (inetNtoa 10 0 0 2) 1 1 6).ip1 = "10.0.0.2" ∧
    (mkFlowKey (inetNtoa 9 0 0 1) (inetNtoa 10 0 0 2) 1 1 6).port1 = 1 ∧
    (mkFlowKey (inetNtoa 9 0 0 1) (inetNtoa 10 0 0 2) 1 1 6).is_forward = false ∧
    inetNtoa 9 0 0 1 ≠ "10.0.0.2" := by
  refine ⟨by decide, rfl, rfl, rfl, by decide⟩

/-- C3 (amended): `FlowKey` construction compares the endpoint pairs as
Python `(str, int)` tuples — the dotted-decimal strings by code point,
not the 4-byte addresses numerically. For distinct endpoint pairs the
smaller pair under that string order lands in `(ip1, port1)` (so the
stored slot-a pair is strictly `pairLt`-below the slot-b pair), and
`is_forward` is true iff `(src_ip, src_port)` equals the slot-a pair. -/
theorem mkFlowKey_string_order (sip dip : String) (sp dp proto : Nat)
    (hne : (sip, sp) ≠ (dip, dp)) :
    (mkFlowKey sip dip sp dp proto =
        { ip1 := sip, port1 := sp, ip2 := dip, port2 := dp,
          protocol := proto, is_forward := true } ∨
     mkFlowKey sip dip sp dp proto =
        { ip1 := dip, port1 := dp, ip2 := sip, port2 := sp,
          protocol := proto, is_forward := false }) ∧
    pairLt ((mkFlowKey sip dip sp dp proto).ip1, (mkFlowKey sip dip sp dp proto).port1)
           ((mkFlowKey sip dip sp dp proto).ip2, (mkFlowKey sip dip sp dp proto).port2)
      = true ∧
    ((mkFlowKey sip dip sp dp proto).is_forward = true ↔
      (sip, sp) = ((mkFlowKey sip dip sp dp proto).ip1, (mkFlowKey sip dip sp dp proto).port1)) := by
  cases h : pairLt (sip, sp) (dip, dp) with
  | true =>
      refine ⟨Or.inl ?_, ?_, ?_⟩ <;> simp [mkFlowKey, h]
  | false =>
      have h' : pairLt (dip, dp) (sip, sp) = true := pairLt_total hne h
      refine ⟨Or.inr ?_, ?_, ?_⟩
      · simp [mkFlowKey, h]
      · simp [mkFlowKey, h, h']
      · simp only [mkFlowKey, h, Bool.false_eq_true, if_false]
        simp only [Bool.false_eq_true, false_iff]
        exact fun hc => hne hc

/-- C3 witness: instantiates the amended characterization at
`10.0.0.1:5000 → 10.0.0.2:80` over TCP. -/
theorem mkFlowKey_string_order_witness :
    (mkFlowKey "10.0.0.1" "10.0.0.2" 5000 80 6 =
        { ip1 := "10.0.0.1", port1 := 5000, ip2 := "10.0.0.2", port2 := 80,
          protocol := 6, is_forward := true } ∨
     mkFlowKey "10.0.0.1" "10.0.0.2" 5000 80 6 =
        { ip1 := "10.0.0.2", port1 := 80, ip2 := "10.0.0.1", port2 := 5000,
          protocol := 6, is_forward := false }) ∧
    pairLt ((mkFlowKey "10.0.0.1" "10.0.0.2" 5000 80 6).ip1,
            (mkFlowKey "10.0.0.1" "10.0.0.2" 5000 80 6).port1)
           ((mkFlowKey "10.0.0.1" "10.0.0.2" 5000 80 6).ip2,
            (mkFlowKey "10.0.0.1" "10.0.0.2" 5000 80 6).port2) = true ∧
    ((mkFlowKey "10.0.0.1" "10.0.0.2" 5000 80 6).is_forward = true ↔
      ("10.0.0.1", 5000) = ((mkFlowKey "10.0.0.1" "10.0.0.2" 5000 80 6).ip1,
                            (mkFlowKey "10.0.0.1" "10.0.0.2" 5000 80 6).port1)) :=
  mkFlowKey_string_order "10.0.0.1" "10.0.0.2" 5000 80 6 (by decide)

/-- C5: flow-key canonicalization is direction-symmetric.
For distinct endpoint pairs `a` and `b` and any protocol, the key built
from `a→b` is `FlowKey.__eq__`-equal to (and hashes equal to) the key
built from `b→a`, and their `is_forward` bits are opposite. -/
theorem flowKey_direction_symmetric (a b : String × Nat) (protocol : Nat)
    (hne : a ≠ b) :
    fkBeq (mkFlowKey a.1 b.1 a.2 b.2 protocol) (mkFlowKey b.1 a.1 b.2 a.2 protocol) = true ∧
    hashFK (mkFlowKey a.1 b.1 a.2 b.2 protocol) = hashFK (mkFlowKey b.1 a.1 b.2 a.2 protocol) ∧
    (mkFlowKey a.1 b.1 a.2 b.2 protocol).is_forward
      = ! (mkFlowKey b.1 a.1 b.2 a.2 protocol).is_forward := by
  cases hab : pairLt (a.1, a.2) (b.1, b.2) with
  | true =>
      have hba : pairLt (b.1, b.2) (a.1, a.2) = false := pairLt_asymm hab
      simp only [mkFlowKey, hab, hba, if_true, if_false, Bool.false_eq_true]
      refine ⟨?_, rfl, rfl⟩
      simp [fkBeq]
  | false =>
      have hne' : (a.1, a.2) ≠ (b.1, b.2) := by
        intro hcontra
        exact hne (Prod.ext (congrArg Prod.fst hcontra) (congrArg Prod.snd hcontra))
      have hba : pairLt (b.1, b.2) (a.1, a.2) = true := pairLt_total hne' hab
      simp only [mkFlowKey, hab, hba, if_true, if_false, Bool.false_eq_true]
      refine ⟨?_, rfl, rfl⟩
      simp [fkBeq]

/-- C5 witness: the two directions of `10.0.0.1:5000 ↔ 10.0.0.2:80` over TCP
give equal keys with opposite direction bits. -/
theorem flowKey_direction_symmetric_witness :
    fkBeq (mkFlowKey "10.0.0.1" "10.0.0.2" 5000 80 6) (mkFlowKey "10.0.0.2" "10.0.0.1" 80 5000 6) = true ∧
    hashFK (mkFlowKey "10.0.0.1" "10.0.0.2" 5000 80 6) = hashFK (mkFlowKey "10.0.0.2" "10.0.0.1" 80 5000 6) ∧
    (mkFlowKey "10.0.0.1" "10.0.0.2" 5000 80 6).is_forward
      = ! (mkFlowKey "10.0.0.2" "10.0.0.1" 80 5000 6).is_forward :=
  flowKey_direction_symmetric ("10.0.0.1", 5000) ("10.0.0.2", 80) 6 (by decide)

theorem updateFS_idle_periods (s : FlowState) (pl : Nat) (ts : ℚ) (fwd : Bool) (fl win : Nat) :
    (updateFS s pl ts fwd fl win).idle_periods =
      match (match s.start_time with
             | none => some ts
             | some _ => s.last_activity_time) with
      | some la => if ts - la > 1 then s.idle_periods ++ [ts - la] else s.idle_periods
      | none => s.idle_periods := by
  obtain ⟨st, lt, tp, fp, fb, fpl, fiat, flt, bp, bb, bpl, biat, blt, apl, aiat, lpt, tfc, tws, ap, ip, lat⟩ := s
  cases st <;> cases lpt <;> cases fwd <;> cases lat <;> cases flt <;> cases blt <;>
    by_cases hfl : fl > 0 <;> by_cases hwin : win > 0 <;>
    simp [updateFS, hfl, hwin] <;> split <;> rfl

/-- C6: `update` appends the gap `ts − last_activity_time` to `idle_periods`
exactly when `last_activity_time` was set and the gap exceeds 1.0 s, then
sets `last_activity_time := ts` (for states where `start_time` and
`last_activity_time` are set together, as the constructor and every update
guarantee); consequently three packets of one flow at ts = 0, 1.5 and 3.0
give `idle_periods = [1.5, 1.5]`, `idle_mean = 1.5` and `idle_std = 0`. -/
theorem flowState_idle_tracking (s : FlowState) (pl : Nat) (ts : ℚ) (fwd : Bool)
    (fl win : Nat) (h : s.start_time = none ↔ s.last_activity_time = none) :
    ((updateFS s pl ts fwd fl win).idle_periods =
      match s.last_activity_time with
      | some la => if ts - la > 1 then s.idle_periods ++ [ts - la] else s.idle_periods
      | none => s.idle_periods) ∧
    (updateFS s pl ts fwd fl win).last_activity_time = some ts ∧
    (applyUpdates initFlowState idleDemoUpdates).idle_periods = [3/2, 3/2] ∧
    (calcFlowStats (applyUpdates initFlowState idleDemoUpdates) 3).idle_mean = 3/2 ∧
    (calcFlowStats (applyUpdates initFlowState idleDemoUpdates) 3).idle_std = 0 := by
  have hip : (applyUpdates initFlowState idleDemoUpdates).idle_periods = [3/2, 3/2] := by
    norm_num [idleDemoUpdates, applyUpdates, updateFS, initFlowState]
  have hne : ([3/2, 3/2] : List ℚ) ≠ [] := by simp
  refine ⟨?_, updateFS_last_activity_time s pl ts fwd fl win, hip, ?_, ?_⟩
  · rw [updateFS_idle_periods]
    cases hst : s.start_time with
    | none =>
        have hlat : s.last_activity_time = none := h.mp hst
        rw [hlat]
        norm_num
    | some t0 => rfl
  · rw [calcFlowStats]
    simp only [hip]
    rw [if_pos hne]
    norm_num [meanQ]
  · rw [calcFlowStats]
    simp only [hip]
    rw [if_pos hne, if_pos (by norm_num : ([3/2, 3/2] : List ℚ).length > 1)]
    rw [stdQ, show svarQ [3/2, 3/2] = 0 from by norm_num [svarQ, meanQ]]
    simp

/-- C6 witness: the idle rule instantiated on the fresh state (hypothesis
holds definitionally), together with the concrete scenario's statistics. -/
theorem flowState_idle_tracking_witness :
    (updateFS initFlowState 74 0 true 2 8192).last_activity_time = some 0 ∧
    (calcFlowStats (applyUpdates initFlowState idleDemoUpdates) 3).idle_mean = 3/2 ∧
    (calcFlowStats (applyUpdates initFlowState idleDemoUpdates) 3).idle_std = 0 :=
  ⟨(flowState_idle_tracking initFlowState 74 0 true 2 8192 (by simp [initFlowState])).2.1,
   (flowState_idle_tracking initFlowState 74 0 true 2 8192 (by simp [initFlowState])).2.2.2.1,
   (flowState_idle_tracking initFlowState 74 0 true 2 8192 (by simp [initFlowState])).2.2.2.2⟩

/-- C7 counterexample: a flow whose single packet arrived at ts = 0.0 has
`last_time = 0.0 < now − 300` at `now = 400`, yet the sweep keeps it: the
Python guard `if flow_state.last_time and …` treats the float `0.0` as
falsy. So the sweep does not remove exactly the entries older than
`now − 300`. -/
theorem cleanup_zero_last_time_counterexample :
    zeroTimeState.last_time = some 0 ∧
    ((0 : ℚ) < 400 - 300) ∧
    ((400 : ℚ) - 0 > 60) ∧
    (cleanupOldFlows [(zeroTimeKey, zeroTimeState)] 0 400).1
      = [(zeroTimeKey, zeroTimeState)] := by
  refine ⟨?_, by norm_num, by norm_num, ?_⟩
  · norm_num [zeroTimeState, updateFS, initFlowState]
  · rw [cleanupOldFlows, if_pos (by norm_num : (400 : ℚ) - 0 > 60)]
    have hlt : zeroTimeState.last_time = some 0 := by
      norm_num [zeroTimeState, updateFS, initFlowState]
    simp [List.filter, flowExpired, hlt]

/-- C7 (amended): the sweep body runs only when more than 60 s have passed
since `last_cleanup` (otherwise the table and the timestamp are untouched);
when it runs it records the sweep time and keeps exactly the entries whose
`last_time` is unset, exactly `0.0` (Python falsiness), or not older than
`now − 300`. -/
theorem cleanup_characterization (flows : List (FlowKey × FlowState)) (lc now : ℚ) :
    (now - lc ≤ 60 → cleanupOldFlows flows lc now = (flows, lc)) ∧
    (now - lc > 60 →
      (cleanupOldFlows flows lc now).2 = now ∧
      ∀ kv, kv ∈ (cleanupOldFlows flows lc now).1 ↔
        kv ∈ flows ∧ ¬ (∃ t, kv.2.last_time = some t ∧ t ≠ 0 ∧ t < now - 300)) := by
  constructor
  · intro h
    rw [cleanupOldFlows, if_neg (not_lt.mpr h)]
  · intro h
    rw [cleanupOldFlows, if_pos h]
    refine ⟨rfl, ?_⟩
    intro kv
    rw [List.mem_filter]
    constructor
    · rintro ⟨hmem, hp⟩
      refine ⟨hmem, ?_⟩
      rintro ⟨t, hlt, ht0, htc⟩
      simp [flowExpired, hlt, ht0, htc] at hp
    · rintro ⟨hmem, hnot⟩
      refine ⟨hmem, ?_⟩
      cases hlt : kv.2.last_time with
      | none => simp [flowExpired, hlt]
      | some t =>
          simp only [flowExpired, hlt, Bool.not_eq_true']
          by_cases ht0 : t = 0
          · simp [ht0]
          · have : ¬ t < now - 300 := fun hc => hnot ⟨t, hlt, ht0, hc⟩
            simp [ht0, this]

/-- C7 witness: within the 60 s interval nothing changes; past it, the
sweep stamps `last_cleanup := now`. -/
theorem cleanup_characterization_witness :
    cleanupOldFlows [] 100 120 = ([], 100) ∧
    (cleanupOldFlows [] 0 400).2 = 400 :=
  ⟨(cleanup_characterization [] 100 120).1 (by norm_num),
   ((cleanup_characterization [] 0 400).2 (by norm_num)).1⟩

/-- C8: in `calculate_flow_statistics`, when the computed `flow_duration`
is 0 all four per-second rate fields are exactly 0 (no division happens),
and when it is positive each rate is the corresponding count or byte
total divided by the duration. -/
theorem flowRates_guarded (fs : FlowState) (ct : ℚ) :
    ((calcFlowStats fs ct).flow_duration = 0 →
      (calcFlowStats fs ct).flow_bytes_per_second = 0 ∧
      (calcFlowStats fs ct).flow_packets_per_second = 0 ∧
      (calcFlowStats fs ct).fwd_packets_per_second = 0 ∧
      (calcFlowStats fs ct).bwd_packets_per_second = 0) ∧
    (0 < (calcFlowStats fs ct).flow_duration →
      (calcFlowStats fs ct).flow_bytes_per_second
        = ((fs.fwd_bytes + fs.bwd_bytes : Nat) : ℚ) / (calcFlowStats fs ct).flow_duration ∧
      (calcFlowStats fs ct).flow_packets_per_second
        = (fs.total_packets : ℚ) / (calcFlowStats fs ct).flow_duration ∧
      (calcFlowStats fs ct).fwd_packets_per_second
        = (fs.fwd_packets : ℚ) / (calcFlowStats fs ct).flow_duration ∧
      (calcFlowStats fs ct).bwd_packets_per_second
        = (fs.bwd_packets : ℚ) / (calcFlowStats fs ct).flow_duration) := by
  simp only [calcFlowStats]
  constructor
  · intro h0
    rw [h0]
    norm_num
  · intro hpos
    rw [if_pos hpos, if_pos hpos, if_pos hpos, if_pos hpos]
    exact ⟨rfl, rfl, rfl, rfl⟩

/-- C8 witness: a never-updated flow has duration 0 and all rates 0. -/
theorem flowRates_guarded_witness :
    (calcFlowStats initFlowState 5).flow_bytes_per_second = 0 ∧
    (calcFlowStats initFlowState 5).flow_packets_per_second = 0 ∧
    (calcFlowStats initFlowState 5).fwd_packets_per_second = 0 ∧
    (calcFlowStats initFlowState 5).bwd_packets_per_second = 0 :=
  (flowRates_guarded initFlowState 5).1 rfl

/-- C9: in every burst of the capture loop, whatever happens in each
buffer's iteration — the struct conversion or data extraction raising,
empty packet data, the callback succeeding, or the callback raising —
the sequence of handles released via `free_packet` is exactly the burst:
every received buffer is freed exactly once, on every control path. -/
theorem capture_frees_each_buffer_once (env : Nat → MbufOutcome) (mbufs : List Nat) :
    freedHandles (processBurst env mbufs) = mbufs ∧
    ∀ h, (freedHandles (processBurst env mbufs)).count h = mbufs.count h := by
  have key : ∀ ms : List Nat, freedHandles (processBurst env ms) = ms := by
    intro ms
    induction ms with
    | nil => rfl
    | cons m rest ih =>
        have hone : freedHandles (processMbuf env m) = [m] := by
          cases hm : env m <;> simp [processMbuf, freedHandles, hm]
        simp only [processBurst, List.map_cons, List.flatten_cons] at ih ⊢
        rw [freedHandles, List.filterMap_append]
        rw [freedHandles] at hone ih
        rw [hone, ih]
        rfl
  exact ⟨key mbufs, fun h => by rw [key mbufs]⟩

/-- C10: `parse_packet` is total (the embedding is a total function and the
source's `except` handler is unreachable as every operation in the body is
guarded), and for every input frame and timestamp the returned record has
`packet_length = len(packet_data)` and `timestamp = int(ts · 10⁶)`. -/
theorem parsePacket_basic_fields (flows : List (FlowKey × FlowState)) (lc now : ℚ)
    (data : List Nat) (ts : ℚ) :
    (parsePacket flows lc now data ts).2.packet_length = data.length ∧
    (parsePacket flows lc now data ts).2.timestamp = pyInt (ts * 1000000) := by
  unfold parsePacket
  repeat' split <;> (try simp)

/-- C1 counterexample: a 14-byte frame with EtherType 0x86DD parses to a
record whose label is `"BENIGN"`, not `"PARSING_ERROR"`: the non-IPv4
branch simply skips IP parsing and no exception is raised, so the default
label survives. -/
theorem parsePacket_non_ipv4_counterexample :
    be16 nonIpv4Frame 12 = 0x86DD ∧
    (parsePacket [] 0 0 nonIpv4Frame 5).2.label = "BENIGN" ∧
    "BENIGN" ≠ "PARSING_ERROR" ∧
    (parsePacket [] 0 0 nonIpv4Frame 5).2.packet_length = 14 ∧
    (parsePacket [] 0 0 nonIpv4Frame 5).2.src_ip = "" ∧
    (parsePacket [] 0 0 nonIpv4Frame 5).2.protocol = 0 :=
  ⟨by decide, rfl, by decide, rfl, rfl, rfl⟩

/-- C1 (amended): for every received frame of at least 14 bytes whose
EtherType is not 0x0800, `parse_packet` returns a record with no IP fields
populated (`src_ip = ""`, `protocol = 0`) that still carries the frame's
`packet_length` and timestamp — but its label remains the default
`"BENIGN"`, not `"PARSING_ERROR"`. -/
theorem parsePacket_non_ipv4 (flows : List (FlowKey × FlowState)) (lc now : ℚ)
    (data : List Nat) (ts : ℚ) (hlen : 14 ≤ data.length) (het : be16 data 12 ≠ 0x0800) :
    (parsePacket flows lc now data ts).2.label = "BENIGN" ∧
    (parsePacket flows lc now data ts).2.src_ip = "" ∧
    (parsePacket flows lc now data ts).2.protocol = 0 ∧
    (parsePacket flows lc now data ts).2.packet_length = data.length ∧
    (parsePacket flows lc now data ts).2.timestamp = pyInt (ts * 1000000) := by
  have hE : parseEthernetHeader data
      = some (macStr (data.take 6), macStr ((data.drop 6).take 6), be16 data 12) := by
    rw [parseEthernetHeader, if_neg (by omega)]
  unfold parsePacket
  rw [hE]
  dsimp only
  rw [if_neg het]
  exact ⟨rfl, rfl, rfl, rfl, rfl⟩

/-- C1 witness: the amended statement at the concrete 0x86DD frame. -/
theorem parsePacket_non_ipv4_witness :
    (parsePacket [] 0 0 nonIpv4Frame 5).2.label = "BENIGN" ∧
    (parsePacket [] 0 0 nonIpv4Frame 5).2.src_ip = "" ∧
    (parsePacket [] 0 0 nonIpv4Frame 5).2.protocol = 0 ∧
    (parsePacket [] 0 0 nonIpv4Frame 5).2.packet_length = nonIpv4Frame.length ∧
    (parsePacket [] 0 0 nonIpv4Frame 5).2.timestamp = pyInt (5 * 1000000) :=
  parsePacket_non_ipv4 [] 0 0 nonIpv4Frame 5 (by decide) (by decide)

/-- C4 counterexample: an EtherType-0x0800 frame of 34 bytes whose IP
version nibble is 6 (not 4) is still parsed in full — src/dst addresses
and protocol are populated and the label stays `"BENIGN"` — because
`parse_ip_header` extracts the version but never checks it. -/
theorem parsePacket_version_counterexample :
    be16 version6Frame 12 = 0x0800 ∧
    byteAt version6Frame 14 / 16 = 6 ∧
    byteAt version6Frame 14 / 16 ≠ 4 ∧
    (parsePacket [] 0 0 version6Frame 5).2.src_ip = "1.2.3.4" ∧
    (parsePacket [] 0 0 version6Frame 5).2.dst_ip = "5.6.7.8" ∧
    (parsePacket [] 0 0 version6Frame 5).2.protocol = 17 ∧
    (parsePacket [] 0 0 version6Frame 5).2.label = "BENIGN" :=
  ⟨by decide, by decide, by decide, rfl, rfl, rfl, rfl⟩

/-- C4 (amended): for every EtherType-0x0800 frame of at least 34 bytes,
parsing continues past the IP header *regardless* of the version nibble:
the IP-level fields are always populated from the header bytes and no
unparseable sentinel is produced. The version field is extracted but
never validated. -/
theorem parsePacket_ignores_ip_version (flows : List (FlowKey × FlowState)) (lc now : ℚ)
    (data : List Nat) (ts : ℚ) (hlen : 34 ≤ data.length) (het : be16 data 12 = 0x0800) :
    (parsePacket flows lc now data ts).2.src_ip
      = inetNtoa (byteAt data 26) (byteAt data 27) (byteAt data 28) (byteAt data 29) ∧
    (parsePacket flows lc now data ts).2.dst_ip
      = inetNtoa (byteAt data 30) (byteAt data 31) (byteAt data 32) (byteAt data 33) ∧
    (parsePacket flows lc now data ts).2.protocol = byteAt data 23 ∧
    (parsePacket flows lc now data ts).2.ttl = byteAt data 22 ∧
    (parsePacket flows lc now data ts).2.label = "BENIGN" := by
  have hE : parseEthernetHeader data
      = some (macStr (data.take 6), macStr ((data.drop 6).take 6), be16 data 12) := by
    rw [parseEthernetHeader, if_neg (by omega)]
  have hI : parseIpHeader data 14 = some
      ({ version := byteAt data 14 / 16
         header_length := byteAt data 14 % 16 * 4
         tos := byteAt data 15
         total_length := be16 data 16
         ttl := byteAt data 22
         protocol := byteAt data 23
         src_ip := inetNtoa (byteAt data 26) (byteAt data 27) (byteAt data 28) (byteAt data 29)
         dst_ip := inetNtoa (byteAt data 30) (byteAt data 31) (byteAt data 32) (byteAt data 33) },
       14 + byteAt data 14 % 16 * 4) := by
    rw [parseIpHeader, if_neg (by omega)]
  unfold parsePacket
  rw [hE]
  dsimp only
  rw [if_pos het, hI]
  dsimp only
  repeat' split <;> (try simp)

/-- C4 witness: the amended statement at the version-6 frame. -/
theorem parsePacket_ignores_ip_version_witness :
    (parsePacket [] 0 0 version6Frame 5).2.src_ip
      = inetNtoa (byteAt version6Frame 26) (byteAt version6Frame 27)
          (byteAt version6Frame 28) (byteAt version6Frame 29) ∧
    (parsePacket [] 0 0 version6Frame 5).2.dst_ip
      = inetNtoa (byteAt version6Frame 30) (byteAt version6Frame 31)
          (byteAt version6Frame 32) (byteAt version6Frame 33) ∧
    (parsePacket [] 0 0 version6Frame 5).2.protocol = byteAt version6Frame 23 ∧
    (parsePacket [] 0 0 version6Frame 5).2.ttl = byteAt version6Frame 22 ∧
    (parsePacket [] 0 0 version6Frame 5).2.label = "BENIGN" :=
  parsePacket_ignores_ip_version [] 0 0 version6Frame 5 (by decide) (by decide)

end Listener
